import Mathlib

/-!
Verification of the SVG-synthesis core and the conversion orchestrator of an
Excalidraw-to-PNG converter (src/docs/convert.py).

Shallow embedding conventions:
* JSON numbers are modelled as exact rationals (`Rat`).  The program's numeric
  formatting of attribute values (Python float/int repr) is abstracted by
  `ratStr`; no verified property depends on the exact digits a number prints as.
* A dictionary field that may be absent is an `Option`; the Python
  `e.get(key, default)` accessors become the `Element.get*` functions below.
* Python exceptions are modelled with `Except PyErr`.  The external
  collaborators (playwright renderer, cairosvg, inkscape) are opaque: an `Env`
  records the outcome each of them would produce, and the orchestrator
  (`convert`, `svg_to_png`) is a function of that environment.  File writes
  performed by the modelled Python code itself (the fallback `.svg` write) are
  returned as a list of `(path, content)` pairs; writes done inside the opaque
  collaborators (the PNG bytes) are part of the collaborators and not tracked.
-/

/-- Python exception values, as far as the converter distinguishes them:
`ImportError` is caught specially in `svg_to_png`; `ValueError` is what
`min()` of an empty sequence raises; `exn` covers every other exception. -/
inductive PyErr where
  | importError
  | valueError
  | exn (msg : String)
deriving DecidableEq

/-- One Excalidraw element: a JSON object whose fields may all be absent.
Field set and defaults follow the `e.get(...)` calls in `excalidraw_to_svg`. -/
structure Element where
  type : Option String := none
  x : Option Rat := none
  y : Option Rat := none
  width : Option Rat := none
  height : Option Rat := none
  strokeColor : Option String := none
  backgroundColor : Option String := none
  strokeWidth : Option Rat := none
  isDeleted : Option Bool := none
  points : Option (List (Rat × Rat)) := none
  text : Option String := none
  fontSize : Option Rat := none
deriving DecidableEq

/-- The scene document.  `excalidraw_to_svg` reads only
`data.get('elements', [])`; `appState` and `files` are merely forwarded to the
external renderer and are not modelled. -/
structure SceneDocument where
  elements : Option (List Element) := none
deriving DecidableEq

def Element.getType (e : Element) : String := e.type.getD ""

def Element.getX (e : Element) : Rat := e.x.getD 0

def Element.getY (e : Element) : Rat := e.y.getD 0

def Element.getWidth (e : Element) : Rat := e.width.getD 100

def Element.getHeight (e : Element) : Rat := e.height.getD 50

def Element.getStroke (e : Element) : String := e.strokeColor.getD "#000"

def Element.getFill (e : Element) : String := e.backgroundColor.getD "transparent"

def Element.getStrokeWidth (e : Element) : Rat := e.strokeWidth.getD 1

def Element.getDeleted (e : Element) : Bool := e.isDeleted.getD false

def Element.getPoints (e : Element) : List (Rat × Rat) := e.points.getD [(0, 0), (100, 0)]

def Element.getText (e : Element) : String := e.text.getD ""

def Element.getFontSize (e : Element) : Rat := e.fontSize.getD 16

/-- The fixed padding added around the bounding box (`pad = 40`). -/
def pad : Rat := 40

/-- Python's `min(xs)`: `none` models the `ValueError` on an empty sequence. -/
def pyMin : List Rat → Option Rat
  | [] => none
  | a :: l => some (l.foldl min a)

/-- Python's `max(xs)`: `none` models the `ValueError` on an empty sequence. -/
def pyMax : List Rat → Option Rat
  | [] => none
  | a :: l => some (l.foldl max a)

/-- The value `min_x` computed in `excalidraw_to_svg` (0 on an empty list,
which the guarded code never asks for). -/
def minXof (els : List Element) : Rat := (pyMin (els.map Element.getX)).getD 0

/-- The value `min_y` computed in `excalidraw_to_svg`. -/
def minYof (els : List Element) : Rat := (pyMin (els.map Element.getY)).getD 0

/-- The value `max_x` computed in `excalidraw_to_svg`:
maximum of `x + width` with defaults applied. -/
def maxXof (els : List Element) : Rat :=
  (pyMax (els.map fun e => e.getX + e.getWidth)).getD 0

/-- The value `max_y` computed in `excalidraw_to_svg`:
maximum of `y + height` with defaults applied. -/
def maxYof (els : List Element) : Rat :=
  (pyMax (els.map fun e => e.getY + e.getHeight)).getD 0

/-- The canvas width `max_x - min_x + 2*pad`. -/
def canvasW (els : List Element) : Rat := maxXof els - minXof els + 2 * pad

/-- The canvas height `max_y - min_y + 2*pad`. -/
def canvasH (els : List Element) : Rat := maxYof els - minYof els + 2 * pad

/-- Canvas-local position of an element:
`(x - min_x + pad, y - min_y + pad)`. -/
def localXY (els : List Element) (e : Element) : Rat × Rat :=
  (e.getX - minXof els + pad, e.getY - minYof els + pad)

/-- Rendering of a numeric attribute value.  This abstracts Python's
float/int-to-string conversion inside the f-strings; an integral rational
prints as its integer and anything else as `num/den`. -/
def ratStr (q : Rat) : String := if q.den = 1 then toString q.num else toString q

/-- The `marker-end` attribute emitted for arrows
(the string interpolated as `marker` in the source). -/
def arrowMarker : String := "marker-end=\"url(#arr)\""

/-- The fixed font family of the text f-string. -/
def textFontFamily : String := "sans-serif"

/-- One `tspan` of a rendered text element:
an optional `x` attribute, an optional `dy` attribute measured in `em`,
and the character content. -/
structure Tspan where
  xAttr : Option Rat := none
  dyEm : Option Rat := none
  content : String
deriving DecidableEq

/-- Splitting a string at every line-break character.  Python's
`txt.replace('\n', SEP)` is exactly `SEP` interposed between these segments,
which is how `renderTspan` consumes the result. -/
def splitOnNlAux : List Char → List Char → List (List Char)
  | [], acc => [acc.reverse]
  | c :: cs, acc =>
    if c = '\n' then acc.reverse :: splitOnNlAux cs [] else splitOnNlAux cs (c :: acc)

/-- Segments of a text between line breaks, in order. -/
def splitOnNl (s : String) : List String :=
  (splitOnNlAux s.data []).map fun l => String.mk l

/-- Structured form of the tspan sequence the source emits for a text element:
the literal `'<tspan>' + txt.replace('\n', '</tspan><tspan x="{x}" dy="1.2em">')
+ '</tspan>'` produces one tspan per line-break-separated segment, the first
with no attributes and every later one carrying `x="{x}"` and `dy="1.2em"`
(the `1.2` is the rational 6/5). -/
def textTspans (x : Rat) (txt : String) : List Tspan :=
  match splitOnNl txt with
  | [] => []
  | s :: rest => { content := s } :: rest.map fun r => { xAttr := some x, dyEm := some (6 / 5), content := r }

/-- Markup of one tspan, matching the source's f-string fragment. -/
def renderTspan (t : Tspan) : String :=
  "<tspan" ++
    (match t.xAttr with
     | some v => " x=\"" ++ ratStr v ++ "\""
     | none => "") ++
    (match t.dyEm with
     | some v => " dy=\"" ++ ratStr v ++ "em\""
     | none => "") ++
    ">" ++ t.content ++ "</tspan>"

/-- The SVG primitive appended to `svgs` for one element.  Each constructor
carries exactly the values interpolated into the corresponding f-string of
the source; `renderPrim` produces that f-string. -/
inductive Prim where
  | rect (x y w h : Rat) (fill stroke : String) (sw : Rat)
  | ellipse (cx cy rx ry : Rat) (fill stroke : String) (sw : Rat)
  | line (x1 y1 x2 y2 : Rat) (stroke : String) (sw : Rat) (marker : String)
  | text (x y : Rat) (fs : Rat) (fill : String) (txt : String)
deriving DecidableEq

/-- The f-string markup of one primitive, following the source literally
(including the space before the possibly-empty `marker` interpolation). -/
def renderPrim : Prim → String
  | .rect x y w h fill stroke sw =>
    "<rect x=\"" ++ ratStr x ++ "\" y=\"" ++ ratStr y ++ "\" width=\"" ++ ratStr w ++
      "\" height=\"" ++ ratStr h ++ "\" fill=\"" ++ fill ++ "\" stroke=\"" ++ stroke ++
      "\" stroke-width=\"" ++ ratStr sw ++ "\" rx=\"4\"/>"
  | .ellipse cx cy rx ry fill stroke sw =>
    "<ellipse cx=\"" ++ ratStr cx ++ "\" cy=\"" ++ ratStr cy ++ "\" rx=\"" ++ ratStr rx ++
      "\" ry=\"" ++ ratStr ry ++ "\" fill=\"" ++ fill ++ "\" stroke=\"" ++ stroke ++
      "\" stroke-width=\"" ++ ratStr sw ++ "\"/>"
  | .line x1 y1 x2 y2 stroke sw marker =>
    "<line x1=\"" ++ ratStr x1 ++ "\" y1=\"" ++ ratStr y1 ++ "\" x2=\"" ++ ratStr x2 ++
      "\" y2=\"" ++ ratStr y2 ++ "\" stroke=\"" ++ stroke ++
      "\" stroke-width=\"" ++ ratStr sw ++ "\" " ++ marker ++ "/>"
  | .text x y fs fill txt =>
    "<text x=\"" ++ ratStr x ++ "\" y=\"" ++ ratStr y ++ "\" font-size=\"" ++ ratStr fs ++
      "\" fill=\"" ++ fill ++ "\" font-family=\"" ++ textFontFamily ++ "\">" ++
      String.join ((textTspans x txt).map renderTspan) ++ "</text>"

/-- The loop body of `excalidraw_to_svg`: the primitive (if any) appended to
`svgs` for element `e`, given the computed `min_x`, `min_y`.  A deleted
element, an unknown type, and a line/arrow with fewer than two points all
contribute nothing. -/
def elemSvg (min_x min_y : Rat) (e : Element) : Option Prim :=
  if e.getDeleted then none
  else
    let x := e.getX - min_x + pad
    let y := e.getY - min_y + pad
    let w := e.getWidth
    let h := e.getHeight
    let stroke := e.getStroke
    let fill := e.getFill
    let sw := e.getStrokeWidth
    let t := e.getType
    if t = "rectangle" then
      some (.rect x y w h fill stroke sw)
    else if t = "ellipse" then
      some (.ellipse (x + w / 2) (y + h / 2) (w / 2) (h / 2) fill stroke sw)
    else if t = "arrow" ∨ t = "line" then
      let pts := e.getPoints
      if 2 ≤ pts.length then
        match pts.head?, pts.getLast? with
        | some p1, some p2 =>
          some (.line (x + p1.1) (y + p1.2) (x + p2.1) (y + p2.2) stroke sw
            (if t = "arrow" then arrowMarker else ""))
        | _, _ => none
      else none
    else if t = "text" then
      some (.text x (y + e.getFontSize) e.getFontSize stroke e.getText)
    else none

/-- The `svgs` list of `excalidraw_to_svg` in element order. -/
def svgsList (els : List Element) : List Prim :=
  els.filterMap (elemSvg (minXof els) (minYof els))

/-- The fixed markup returned for an empty element list. -/
def emptySvg : String :=
  "<svg xmlns=\"http://www.w3.org/2000/svg\" width=\"400\" height=\"300\"><rect fill=\"white\" width=\"100%\" height=\"100%\"/></svg>"

/-- The final f-string of `excalidraw_to_svg`: root element sized to the
canvas, arrowhead marker definition, white background, then the joined
primitives. -/
def svgRoot (width height : Rat) (body : String) : String :=
  "<svg xmlns=\"http://www.w3.org/2000/svg\" width=\"" ++ ratStr width ++
    "\" height=\"" ++ ratStr height ++ "\">\n" ++
    "<defs><marker id=\"arr\" markerWidth=\"10\" markerHeight=\"10\" refX=\"9\" refY=\"3\" orient=\"auto\"><path d=\"M0,0 L0,6 L9,3 z\" fill=\"#000\"/></marker></defs>\n" ++
    "<rect fill=\"white\" width=\"100%\" height=\"100%\"/>\n" ++
    body ++ "\n</svg>"

/-- The bounds computation `min(xs), min(ys), max(ws), max(hs)`;
`none` when any of the four `min`/`max` calls would raise. -/
def boundsOf (elements : List Element) : Option (Rat × Rat × Rat × Rat) :=
  match pyMin (elements.map Element.getX), pyMin (elements.map Element.getY),
      pyMax (elements.map fun e => e.getX + e.getWidth),
      pyMax (elements.map fun e => e.getY + e.getHeight) with
  | some a, some b, some c, some d => some (a, b, c, d)
  | _, _, _, _ => none

/-- The SVG synthesizer `excalidraw_to_svg`.  The `.error` branch is the
`ValueError` that `min()` would raise on an empty sequence; the emptiness
guard makes it unreachable. -/
def excalidraw_to_svg (doc : SceneDocument) : Except PyErr String :=
  if (doc.elements.getD []).isEmpty then .ok emptySvg
  else
    match boundsOf (doc.elements.getD []) with
    | some (min_x, min_y, max_x, max_y) =>
      .ok (svgRoot (max_x - min_x + 2 * pad) (max_y - min_y + 2 * pad)
        (String.join (((doc.elements.getD []).filterMap (elemSvg min_x min_y)).map renderPrim)))
    | none => .error PyErr.valueError

/-- Position of each tspan baseline under SVG text-layout semantics, which is
how the emitted markup displays: a `tspan` with an `x` attribute has that
absolute x-coordinate (otherwise it continues at the current x), and a `dy`
attribute in `em` units advances the baseline by `dy * font-size`.  Arguments
are the font size and the current position. -/
def tspanBaselinesAux (fs : Rat) : Rat → Rat → List Tspan → List (Rat × Rat)
  | _, _, [] => []
  | cx, cy, t :: rest =>
    (t.xAttr.getD cx, cy + t.dyEm.getD 0 * fs) ::
      tspanBaselinesAux fs (t.xAttr.getD cx) (cy + t.dyEm.getD 0 * fs) rest

/-- Baselines of a tspan list started at the text element's anchor. -/
def tspanBaselines (x0 y0 fs : Rat) (ts : List Tspan) : List (Rat × Rat) :=
  tspanBaselinesAux fs x0 y0 ts

/-- The visual line positions of a text element rendered at anchor
`(x0, y0)` with font size `fs`: baselines of the tspans the source emits. -/
def textLayout (x0 y0 fs : Rat) (txt : String) : List (Rat × Rat) :=
  tspanBaselines x0 y0 fs (textTspans x0 txt)

/-- Scan deciding a necessary condition for well-formed XML/SVG markup:
a literal less-than sign must never occur again before the closing
greater-than sign of the tag it opened (XML forbids a raw newline-free
occurrence of a second opening angle bracket inside a tag, and forbids a raw
less-than sign in character data, which this scan flags on the next
angle bracket). -/
def xmlLtOkAux : List Char → Bool → Bool
  | [], _ => true
  | c :: cs, inTag =>
    if c = '<' then (if inTag then false else xmlLtOkAux cs true)
    else if c = '>' then xmlLtOkAux cs false
    else xmlLtOkAux cs inTag

/-- Necessary well-formedness condition for markup, applied to a whole string. -/
def xmlLtOk (s : String) : Bool := xmlLtOkAux s.data false

/-- Test whether the first list is an initial segment of the second. -/
def startsWithChars : List Char → List Char → Bool
  | [], _ => true
  | _ :: _, [] => false
  | p :: ps, c :: cs => p == c && startsWithChars ps cs

/-- Python's `str.replace(pat, rep)` on character lists, with fuel
(one unit per emitted position; `fuel = length` always suffices). -/
def pyReplaceGo (pat rep : List Char) : Nat → List Char → List Char
  | 0, cs => cs
  | _ + 1, [] => []
  | fuel + 1, c :: cs =>
    if startsWithChars pat (c :: cs) then
      rep ++ pyReplaceGo pat rep fuel (List.drop pat.length (c :: cs))
    else
      c :: pyReplaceGo pat rep fuel cs

/-- Python's `str.replace`: every non-overlapping occurrence, left to right. -/
def pyReplace (s pat rep : String) : String :=
  if pat.data.isEmpty then s
  else String.mk (pyReplaceGo pat.data rep.data s.data.length s.data)

/-- Truth of an `Except` succeeding, for stating no-exception properties. -/
def isOkB : Except PyErr α → Bool
  | .ok _ => true
  | .error _ => false

/-- Outcomes of the external collaborators and of scene loading, recorded so
that the orchestration logic is a function.  `loadResult` is the result of
`open` plus `json.load` (a parse failure is an uncaught exception there);
`playwrightResult` is the primary renderer (its exceptions are caught);
`cairosvgAvailable` is whether `import cairosvg` succeeds;
`cairosvgResult` is the `cairosvg.svg2png` call; `inkscapeOk` is whether the
`subprocess.run(['inkscape', ...], check=True)` call succeeds (its failures
are swallowed by a bare `except`). -/
structure Env where
  loadResult : Except PyErr SceneDocument
  playwrightResult : Except PyErr Bool
  cairosvgAvailable : Bool
  cairosvgResult : Except PyErr Unit
  inkscapeOk : Bool

/-- The `svg_to_png` fallback encoder.  Returns the boolean result together
with the files this function itself writes (the `.svg` sibling in the
`ImportError` branch); a non-`ImportError` exception from the cairosvg call
propagates, exactly as in the source where only `ImportError` is handled. -/
def svg_to_png (env : Env) (svg : String) (output : String) :
    Except PyErr (Bool × List (String × String)) :=
  let tryBody : Except PyErr Unit :=
    if env.cairosvgAvailable then env.cairosvgResult else .error .importError
  match tryBody with
  | .ok _ => .ok (true, [])
  | .error PyErr.importError =>
    let svg_path := pyReplace output ".png" ".svg"
    if env.inkscapeOk then .ok (true, [(svg_path, svg)])
    else .ok (false, [(svg_path, svg)])
  | .error e => .error e

/-- The orchestrator `convert`: load, try the primary renderer (all its
exceptions caught), then synthesize SVG and hand it to `svg_to_png`. -/
def convert (env : Env) (output_path : String) :
    Except PyErr (Bool × List (String × String)) :=
  match env.loadResult with
  | .error e => .error e
  | .ok data =>
    match env.playwrightResult with
    | .ok true => .ok (true, [])
    | _ =>
      match excalidraw_to_svg data with
      | .error e => .error e
      | .ok svg => svg_to_png env svg output_path

/-- The exit status `main` derives from `convert`:
`sys.exit(0 if convert(...) else 1)`. -/
def sysExitCode (ok : Bool) : Nat := if ok then 0 else 1

/-! Concrete documents and environments used to instantiate the theorems. -/

/-- The single rectangle of the spec's canvas-size test. -/
def rectElC1 : Element :=
  { type := some "rectangle", x := some 10, y := some 10, width := some 50, height := some 20 }

/-- A document holding only `rectElC1`. -/
def docC1 : SceneDocument := { elements := some [rectElC1] }

/-- A small visible rectangle. -/
def visElC2 : Element :=
  { type := some "rectangle", x := some 0, y := some 0, width := some 10, height := some 10 }

/-- A large deleted rectangle; it must widen the canvas yet not be rendered. -/
def delElC2 : Element :=
  { type := some "rectangle", x := some 0, y := some 0, width := some 200, height := some 100,
    isDeleted := some true }

/-- An arrow with a midpoint, from the spec's endpoint-only test. -/
def arrowElC3 : Element :=
  { type := some "arrow", x := some 0, y := some 0, points := some [(0, 0), (10, 0), (20, 0)] }

/-- A text element with one line break. -/
def textElC4 : Element := { type := some "text", x := some 0, y := some 0, text := some "a\nb" }

/-- A text element whose content holds a raw less-than sign. -/
def badTextEl : Element := { type := some "text", text := some "a<b" }

/-- A document holding only `badTextEl`. -/
def docBadText : SceneDocument := { elements := some [badTextEl] }

/-- An arrow carrying an explicit single-point sequence. -/
def shortArrowEl : Element := { type := some "arrow", points := some [(5, 5)] }

/-- Environment where the raster library imports fine but its encoding call
raises: the `except ImportError` clause does not cover this. -/
def envBad7 : Env :=
  { loadResult := .ok { elements := some [] },
    playwrightResult := .error (.exn "playwright missing"),
    cairosvgAvailable := true,
    cairosvgResult := .error (.exn "raster crash"),
    inkscapeOk := false }

/-- Environment where the primary renderer fails and the raster library
imports but raises while encoding, with inkscape also unavailable. -/
def envBad8 : Env :=
  { loadResult := .ok { elements := some [] },
    playwrightResult := .error (.exn "no browser"),
    cairosvgAvailable := true,
    cairosvgResult := .error (.exn "encode failed"),
    inkscapeOk := false }

/-- Environment where everything after the scene load works via cairosvg. -/
def envOk7 : Env :=
  { loadResult := .ok { elements := some [] },
    playwrightResult := .error (.exn "playwright missing"),
    cairosvgAvailable := true,
    cairosvgResult := .ok (),
    inkscapeOk := false }

/-- Environment with no rasterizer at all: cairosvg fails to import and the
inkscape invocation fails. -/
def envSvgOnly : Env :=
  { loadResult := .ok { elements := some [] },
    playwrightResult := .error (.exn "playwright missing"),
    cairosvgAvailable := false,
    cairosvgResult := .ok (),
    inkscapeOk := false }

/-! Helper lemmas about the bounds fold, the renderer loop and the
synthesizer's overall shape. -/

theorem foldl_min_le_init (l : List Rat) (a : Rat) : l.foldl min a ≤ a := by
  induction l generalizing a with
  | nil => exact le_refl a
  | cons b t ih => exact le_trans (ih (min a b)) (min_le_left a b)

theorem le_foldl_max_init (l : List Rat) (a : Rat) : a ≤ l.foldl max a := by
  induction l generalizing a with
  | nil => exact le_refl a
  | cons b t ih => exact le_trans (le_max_left a b) (ih (max a b))

theorem foldl_min_le_all (l : List Rat) (a x : Rat) (hx : x = a ∨ x ∈ l) :
    l.foldl min a ≤ x := by
  induction l generalizing a with
  | nil =>
    rcases hx with h | h
    · exact le_of_eq h.symm
    · cases h
  | cons b t ih =>
    rcases hx with h | h
    · subst h
      exact le_trans (foldl_min_le_init t (min x b)) (min_le_left x b)
    · rcases List.mem_cons.mp h with h | h
      · subst h
        exact le_trans (foldl_min_le_init t (min a x)) (min_le_right a x)
      · exact ih (min a b) (Or.inr h)

theorem le_foldl_max_all (l : List Rat) (a x : Rat) (hx : x = a ∨ x ∈ l) :
    x ≤ l.foldl max a := by
  induction l generalizing a with
  | nil =>
    rcases hx with h | h
    · exact le_of_eq h
    · cases h
  | cons b t ih =>
    rcases hx with h | h
    · subst h
      exact le_trans (le_max_left x b) (le_foldl_max_init t (max x b))
    · rcases List.mem_cons.mp h with h | h
      · subst h
        exact le_trans (le_max_right a x) (le_foldl_max_init t (max a x))
      · exact ih (max a b) (Or.inr h)

theorem pyMin_getD_le (l : List Rat) (x : Rat) (hx : x ∈ l) : (pyMin l).getD 0 ≤ x := by
  cases l with
  | nil => cases hx
  | cons a t =>
    show t.foldl min a ≤ x
    exact foldl_min_le_all t a x (List.mem_cons.mp hx)

theorem le_pyMax_getD (l : List Rat) (x : Rat) (hx : x ∈ l) : x ≤ (pyMax l).getD 0 := by
  cases l with
  | nil => cases hx
  | cons a t =>
    show x ≤ t.foldl max a
    exact le_foldl_max_all t a x (List.mem_cons.mp hx)

theorem minXof_le (els : List Element) (e : Element) (he : e ∈ els) :
    minXof els ≤ e.getX :=
  pyMin_getD_le _ _ (List.mem_map_of_mem Element.getX he)

theorem minYof_le (els : List Element) (e : Element) (he : e ∈ els) :
    minYof els ≤ e.getY :=
  pyMin_getD_le _ _ (List.mem_map_of_mem Element.getY he)

theorem le_maxXof (els : List Element) (e : Element) (he : e ∈ els) :
    e.getX + e.getWidth ≤ maxXof els :=
  le_pyMax_getD _ _ (List.mem_map_of_mem (fun e => e.getX + e.getWidth) he)

theorem le_maxYof (els : List Element) (e : Element) (he : e ∈ els) :
    e.getY + e.getHeight ≤ maxYof els :=
  le_pyMax_getD _ _ (List.mem_map_of_mem (fun e => e.getY + e.getHeight) he)

theorem elemSvg_deleted (m n : Rat) (e : Element) (h : e.getDeleted = true) :
    elemSvg m n e = none := by
  simp [elemSvg, h]

theorem filterMap_skip_deleted (m n : Rat) (els : List Element) :
    els.filterMap (elemSvg m n) =
      (els.filter fun e => !e.getDeleted).filterMap (elemSvg m n) := by
  induction els with
  | nil => rfl
  | cons a t ih =>
    cases ha : a.getDeleted with
    | true => simp [List.filter_cons, ha, elemSvg_deleted m n a ha, ih]
    | false =>
      have hf : List.filter (fun e => !e.getDeleted) (a :: t) =
          a :: List.filter (fun e => !e.getDeleted) t := by
        simp [List.filter_cons, ha]
      rw [hf, List.filterMap_cons, List.filterMap_cons, ih]

theorem boundsOf_cons (a : Element) (t : List Element) :
    boundsOf (a :: t) =
      some (minXof (a :: t), minYof (a :: t), maxXof (a :: t), maxYof (a :: t)) := by
  simp [boundsOf, pyMin, pyMax, minXof, minYof, maxXof, maxYof]

theorem synth_nonempty (doc : SceneDocument) (a : Element) (t : List Element)
    (h : doc.elements.getD [] = a :: t) :
    excalidraw_to_svg doc = .ok (svgRoot (canvasW (a :: t)) (canvasH (a :: t))
      (String.join ((svgsList (a :: t)).map renderPrim))) := by
  rw [excalidraw_to_svg, h]
  simp [boundsOf_cons, canvasW, canvasH, svgsList]

theorem synth_ok (doc : SceneDocument) : ∃ s, excalidraw_to_svg doc = .ok s := by
  cases h : doc.elements.getD [] with
  | nil => exact ⟨emptySvg, by rw [excalidraw_to_svg, h]; rfl⟩
  | cons a t => exact ⟨_, synth_nonempty doc a t h⟩

theorem splitOnNlAux_ne_nil (cs acc : List Char) : splitOnNlAux cs acc ≠ [] := by
  induction cs generalizing acc with
  | nil => simp [splitOnNlAux]
  | cons c t ih =>
    rw [splitOnNlAux]
    by_cases hc : c = '\n'
    · simp [hc]
    · simp only [if_neg hc]
      exact ih (c :: acc)

theorem splitOnNl_ne_nil (s : String) : splitOnNl s ≠ [] := by
  rw [splitOnNl]
  intro h
  exact splitOnNlAux_ne_nil s.data [] (List.map_eq_nil_iff.mp h)

theorem tspanBaselinesAux_length (fs : Rat) (ts : List Tspan) :
    ∀ cx cy, (tspanBaselinesAux fs cx cy ts).length = ts.length := by
  induction ts with
  | nil => intro cx cy; rfl
  | cons t rest ih =>
    intro cx cy
    rw [tspanBaselinesAux]
    simp [ih]

theorem tspanBaselinesAux_fst (fs lx d : Rat) (rest : List String) :
    ∀ cx cy p, p ∈ tspanBaselinesAux fs cx cy
      (rest.map fun r => ({ xAttr := some lx, dyEm := some d, content := r } : Tspan)) →
      p.1 = lx := by
  induction rest with
  | nil => intro cx cy p hp; cases hp
  | cons r rest ih =>
    intro cx cy p hp
    rw [List.map_cons, tspanBaselinesAux] at hp
    rcases List.mem_cons.mp hp with h | h
    · subst h
      rfl
    · exact ih _ _ p h

theorem tspanBaselinesAux_chain (fs lx d : Rat) (rest : List String) :
    ∀ cx cy, List.Chain (fun p q : Rat × Rat => q.2 = p.2 + d * fs) (cx, cy)
      (tspanBaselinesAux fs cx cy
        (rest.map fun r => ({ xAttr := some lx, dyEm := some d, content := r } : Tspan))) := by
  induction rest with
  | nil => intro cx cy; exact List.Chain.nil
  | cons r rest ih =>
    intro cx cy
    rw [List.map_cons, tspanBaselinesAux]
    exact List.Chain.cons rfl (ih lx (cy + d * fs))

/-! Claim theorems. -/

/-- C5: for every document whose element sequence is empty, synthesis returns
exactly the fixed 400-by-300 white-background markup, and (second conjunct)
the synthesizer never reaches the min-over-empty-sequence error branch on any
document at all. -/
theorem C5_empty_fixed_canvas :
    ∀ doc : SceneDocument,
      (doc.elements.getD [] = [] → excalidraw_to_svg doc = .ok emptySvg) ∧
      isOkB (excalidraw_to_svg doc) = true := by
  intro doc
  constructor
  · intro h
    rw [excalidraw_to_svg, h]
    rfl
  · rcases synth_ok doc with ⟨s, hs⟩
    rw [hs]
    rfl

/-- Witness for C5 at the concrete empty document. -/
theorem C5_empty_fixed_canvas_witness :
    excalidraw_to_svg { elements := some [] } = .ok emptySvg :=
  (C5_empty_fixed_canvas { elements := some [] }).1 rfl

/-- C9: synthesis is deterministic — it is a pure function of the document
alone (no randomness, time, or environment appears in its definition), so two
runs on the same input are byte-identical. -/
theorem C9_synthesis_deterministic :
    ∀ d1 d2 : SceneDocument, d1 = d2 → excalidraw_to_svg d1 = excalidraw_to_svg d2 :=
  fun _ _ h => congrArg excalidraw_to_svg h

/-- Witness for C9: two runs on the single-rectangle document agree. -/
theorem C9_synthesis_deterministic_witness :
    excalidraw_to_svg docC1 = excalidraw_to_svg docC1 :=
  C9_synthesis_deterministic docC1 docC1 rfl

/-- C1: the single-rectangle document {x:10, y:10, width:50, height:20} gets a
130-by-100 canvas with its rectangle primitive at local (40, 40); in general,
every non-empty element list yields canvas width maxX - minX + 80 and height
maxY - minY + 80 (pad 40), and each element's local position is
(x - minX + 40, y - minY + 40). -/
theorem C1_canvas_normalization :
    (canvasW [rectElC1] = 130 ∧ canvasH [rectElC1] = 100 ∧
      svgsList [rectElC1] = [Prim.rect 40 40 50 20 "transparent" "#000" 1]) ∧
    ∀ (doc : SceneDocument) (a : Element) (t : List Element),
      doc.elements.getD [] = a :: t →
      excalidraw_to_svg doc = .ok (svgRoot (canvasW (a :: t)) (canvasH (a :: t))
        (String.join ((svgsList (a :: t)).map renderPrim))) ∧
      canvasW (a :: t) = maxXof (a :: t) - minXof (a :: t) + 80 ∧
      canvasH (a :: t) = maxYof (a :: t) - minYof (a :: t) + 80 ∧
      ∀ e ∈ a :: t, localXY (a :: t) e =
        (e.getX - minXof (a :: t) + 40, e.getY - minYof (a :: t) + 40) := by
  constructor
  · refine ⟨?_, ?_, ?_⟩
    · norm_num [canvasW, maxXof, minXof, pyMax, pyMin, pad, rectElC1,
        Element.getX, Element.getWidth]
    · norm_num [canvasH, maxYof, minYof, pyMax, pyMin, pad, rectElC1,
        Element.getY, Element.getHeight]
    · simp only [svgsList, minXof, minYof, pyMin, List.map_cons, List.map_nil,
        List.foldl_nil, Option.getD_some, List.filterMap_cons, List.filterMap_nil]
      norm_num [elemSvg, rectElC1, pad, Element.getDeleted, Element.getType,
        Element.getX, Element.getY, Element.getWidth, Element.getHeight,
        Element.getStroke, Element.getFill, Element.getStrokeWidth]
  · intro doc a t h
    refine ⟨synth_nonempty doc a t h, ?_, ?_, ?_⟩
    · norm_num [canvasW, pad]
    · norm_num [canvasH, pad]
    · intro e _
      simp [localXY, pad]

/-- Witness for C1: the general shape applied to the single-rectangle
document. -/
theorem C1_canvas_normalization_witness :
    excalidraw_to_svg docC1 = .ok (svgRoot (canvasW [rectElC1]) (canvasH [rectElC1])
      (String.join ((svgsList [rectElC1]).map renderPrim))) :=
  (C1_canvas_normalization.2 docC1 rectElC1 [] rfl).1

/-- C2: deleted elements enter the bounding box (their x, x+width, y, y+height
bound the extents, with defaults width 100, height 50 via the accessors) but
are skipped by rendering, so the svgs list equals the filterMap over the
non-deleted elements only; concretely, a deleted 200-by-100 rectangle widens
the canvas to 280-by-180 while only the visible 10-by-10 rectangle is
rendered. -/
theorem C2_deleted_bounds_not_rendered :
    (svgsList [visElC2, delElC2] = [Prim.rect 40 40 10 10 "transparent" "#000" 1] ∧
      canvasW [visElC2, delElC2] = 280 ∧ canvasH [visElC2, delElC2] = 180) ∧
    ∀ els : List Element,
      svgsList els = (els.filter fun e => !e.getDeleted).filterMap
        (elemSvg (minXof els) (minYof els)) ∧
      ∀ e ∈ els, minXof els ≤ e.getX ∧ e.getX + e.getWidth ≤ maxXof els ∧
        minYof els ≤ e.getY ∧ e.getY + e.getHeight ≤ maxYof els := by
  constructor
  · refine ⟨?_, ?_, ?_⟩
    · simp only [svgsList, minXof, minYof, pyMin, List.map_cons, List.map_nil,
        List.foldl_cons, List.foldl_nil, Option.getD_some,
        List.filterMap_cons, List.filterMap_nil]
      norm_num [elemSvg, visElC2, delElC2, pad, Element.getDeleted, Element.getType,
        Element.getX, Element.getY, Element.getWidth, Element.getHeight,
        Element.getStroke, Element.getFill, Element.getStrokeWidth]
    · norm_num [canvasW, maxXof, minXof, pyMax, pyMin, pad, visElC2, delElC2,
        Element.getX, Element.getWidth]
    · norm_num [canvasH, maxYof, minYof, pyMax, pyMin, pad, visElC2, delElC2,
        Element.getY, Element.getHeight]
  · intro els
    refine ⟨filterMap_skip_deleted _ _ els, ?_⟩
    intro e he
    exact ⟨minXof_le els e he, le_maxXof els e he, minYof_le els e he, le_maxYof els e he⟩

/-- Witness for C2: the deleted element of the concrete document is inside
the computed bounds. -/
theorem C2_deleted_bounds_not_rendered_witness :
    minXof [visElC2, delElC2] ≤ delElC2.getX ∧
    delElC2.getX + delElC2.getWidth ≤ maxXof [visElC2, delElC2] ∧
    minYof [visElC2, delElC2] ≤ delElC2.getY ∧
    delElC2.getY + delElC2.getHeight ≤ maxYof [visElC2, delElC2] :=
  (C2_deleted_bounds_not_rendered.2 [visElC2, delElC2]).2 delElC2
    (List.mem_cons_of_mem _ (List.mem_cons_self _ _))

/-- C10: a line or arrow element carrying an explicit points sequence with
fewer than two entries produces no primitive at all (for any bounds), yet the
element still bounds the canvas through its position and (default) size. -/
theorem C10_short_points_no_primitive :
    ∀ (e : Element) (ps : List (Rat × Rat)) (els : List Element),
      (e.getType = "line" ∨ e.getType = "arrow") →
      e.points = some ps → ps.length < 2 →
      (∀ m n : Rat, elemSvg m n e = none) ∧
      (e ∈ els → minXof els ≤ e.getX ∧ e.getX + e.getWidth ≤ maxXof els ∧
        minYof els ≤ e.getY ∧ e.getY + e.getHeight ≤ maxYof els) := by
  intro e ps els ht hp hlen
  constructor
  · intro m n
    have hpts : ¬ (2 ≤ e.getPoints.length) := by
      rw [Element.getPoints, hp, Option.getD_some]
      omega
    rcases ht with h | h <;>
      cases hd : e.getDeleted <;>
        simp [elemSvg, hd, h, hpts]
  · intro he
    exact ⟨minXof_le els e he, le_maxXof els e he, minYof_le els e he, le_maxYof els e he⟩

/-- Witness for C10 at a single-point arrow, with bounds over the singleton
list containing it. -/
theorem C10_short_points_no_primitive_witness :
    elemSvg 0 0 shortArrowEl = none ∧
    minXof [shortArrowEl] ≤ shortArrowEl.getX ∧
    shortArrowEl.getX + shortArrowEl.getWidth ≤ maxXof [shortArrowEl] := by
  have h := C10_short_points_no_primitive shortArrowEl [(5, 5)] [shortArrowEl]
    (Or.inr rfl) rfl (by decide)
  have h2 := h.2 (List.mem_cons_self _ _)
  exact ⟨h.1 0 0, h2.1, h2.2.1⟩

/-- C3: a rendered (non-deleted) line or arrow element whose effective points
sequence has at least two entries yields exactly one line primitive, from the
first point to the last point, both offset by the element's local position;
intermediate points contribute nothing.  The marker slot is the arrowhead
reference for an arrow and empty for a line. -/
theorem C3_line_arrow_endpoints_only :
    ∀ (m n : Rat) (e : Element) (p1 : Rat × Rat) (tl : List (Rat × Rat)),
      e.getDeleted = false →
      (e.getType = "line" ∨ e.getType = "arrow") →
      e.getPoints = p1 :: tl → tl ≠ [] →
      elemSvg m n e = some (Prim.line
        (e.getX - m + pad + p1.1) (e.getY - n + pad + p1.2)
        (e.getX - m + pad + ((p1 :: tl).getLast (List.cons_ne_nil p1 tl)).1)
        (e.getY - n + pad + ((p1 :: tl).getLast (List.cons_ne_nil p1 tl)).2)
        e.getStroke e.getStrokeWidth
        (if e.getType = "arrow" then arrowMarker else "")) ∧
      (e.getType = "arrow" → (if e.getType = "arrow" then arrowMarker else "") = arrowMarker) ∧
      (e.getType = "line" → (if e.getType = "arrow" then arrowMarker else "") = "") := by
  intro m n e p1 tl hdel ht hp htl
  have hlen : 2 ≤ e.getPoints.length := by
    rw [hp]
    cases tl with
    | nil => exact absurd rfl htl
    | cons q r => simp
  have hhead : e.getPoints.head? = some p1 := by
    rw [hp]
    exact List.head?_cons
  have hlast : e.getPoints.getLast? =
      some ((p1 :: tl).getLast (List.cons_ne_nil p1 tl)) := by
    rw [hp]
    exact List.getLast?_eq_getLast _ _
  refine ⟨?_, fun h => if_pos h, fun h => ?_⟩
  · rcases ht with h | h <;>
      simp [elemSvg, hdel, h, hlen, hhead, hlast]
  · rw [h]
    simp

/-- Witness for C3 at the arrow with points [[0,0],[10,0],[20,0]]. -/
theorem C3_line_arrow_endpoints_only_witness :
    elemSvg 0 0 arrowElC3 = some (Prim.line
      (arrowElC3.getX - 0 + pad + ((0 : Rat), (0 : Rat)).1)
      (arrowElC3.getY - 0 + pad + ((0 : Rat), (0 : Rat)).2)
      (arrowElC3.getX - 0 + pad +
        ((((0 : Rat), (0 : Rat)) :: [((10 : Rat), (0 : Rat)), (20, 0)]).getLast
          (List.cons_ne_nil _ _)).1)
      (arrowElC3.getY - 0 + pad +
        ((((0 : Rat), (0 : Rat)) :: [((10 : Rat), (0 : Rat)), (20, 0)]).getLast
          (List.cons_ne_nil _ _)).2)
      arrowElC3.getStroke arrowElC3.getStrokeWidth
      (if arrowElC3.getType = "arrow" then arrowMarker else "")) :=
  (C3_line_arrow_endpoints_only 0 0 arrowElC3 (0, 0) [(10, 0), (20, 0)] rfl
    (Or.inr rfl) rfl (List.cons_ne_nil _ _)).1

/-- C4: a rendered text element becomes one text primitive anchored at
(localX, localY + fontSize), filled with the element's stroke color and the
fixed sans-serif family; interpreting the emitted tspans under SVG layout
semantics, there is one visual line per line-break-separated segment, all
lines share the x-coordinate, the first sits at the anchor, and each
subsequent line is 1.2 font-sizes below the previous.  Concretely "a\nb"
splits in two lines stacked 1.2 font-sizes apart. -/
theorem C4_text_anchor_and_stacking :
    (splitOnNl "a\nb" = ["a", "b"] ∧
      textLayout 40 56 16 "a\nb" = [(40, 56), (40, 56 + 6 / 5 * 16)]) ∧
    ∀ (m n : Rat) (e : Element),
      e.getDeleted = false → e.getType = "text" →
      elemSvg m n e = some (Prim.text (e.getX - m + pad)
        (e.getY - n + pad + e.getFontSize) e.getFontSize e.getStroke e.getText) ∧
      textFontFamily = "sans-serif" ∧
      (textLayout (e.getX - m + pad) (e.getY - n + pad + e.getFontSize)
          e.getFontSize e.getText).length = (splitOnNl e.getText).length ∧
      (textLayout (e.getX - m + pad) (e.getY - n + pad + e.getFontSize)
          e.getFontSize e.getText).head? =
        some (e.getX - m + pad, e.getY - n + pad + e.getFontSize) ∧
      (∀ p ∈ textLayout (e.getX - m + pad) (e.getY - n + pad + e.getFontSize)
          e.getFontSize e.getText, p.1 = e.getX - m + pad) ∧
      List.Chain' (fun p q : Rat × Rat => q.2 = p.2 + 6 / 5 * e.getFontSize)
        (textLayout (e.getX - m + pad) (e.getY - n + pad + e.getFontSize)
          e.getFontSize e.getText) := by
  constructor
  · have hs : splitOnNl "a\nb" = ["a", "b"] := by decide
    refine ⟨hs, ?_⟩
    rw [textLayout, tspanBaselines, textTspans, hs]
    simp [tspanBaselinesAux]
  · intro m n e hdel ht
    have hsvg : elemSvg m n e = some (Prim.text (e.getX - m + pad)
        (e.getY - n + pad + e.getFontSize) e.getFontSize e.getStroke e.getText) := by
      simp [elemSvg, hdel, ht]
    obtain ⟨s, rest, hsp⟩ : ∃ s rest, splitOnNl e.getText = s :: rest := by
      cases hq : splitOnNl e.getText with
      | nil => exact absurd hq (splitOnNl_ne_nil _)
      | cons s rest => exact ⟨s, rest, rfl⟩
    have hTL : textLayout (e.getX - m + pad) (e.getY - n + pad + e.getFontSize)
        e.getFontSize e.getText =
        (e.getX - m + pad, e.getY - n + pad + e.getFontSize) ::
          tspanBaselinesAux e.getFontSize (e.getX - m + pad)
            (e.getY - n + pad + e.getFontSize)
            (rest.map fun r =>
              ({ xAttr := some (e.getX - m + pad), dyEm := some (6 / 5),
                 content := r } : Tspan)) := by
      rw [textLayout, tspanBaselines, textTspans, hsp]
      simp [tspanBaselinesAux]
    refine ⟨hsvg, rfl, ?_, ?_, ?_, ?_⟩
    · rw [hTL, hsp]
      simp [tspanBaselinesAux_length]
    · rw [hTL]
      rfl
    · intro p hp
      rw [hTL] at hp
      rcases List.mem_cons.mp hp with h | h
      · rw [h]
      · exact tspanBaselinesAux_fst _ _ _ rest _ _ p h
    · rw [hTL]
      show List.Chain _ _ _
      exact tspanBaselinesAux_chain _ _ _ rest _ _

/-- Witness for C4 at the text element "a\nb". -/
theorem C4_text_anchor_and_stacking_witness :
    elemSvg 0 0 textElC4 = some (Prim.text (textElC4.getX - 0 + pad)
      (textElC4.getY - 0 + pad + textElC4.getFontSize) textElC4.getFontSize
      textElC4.getStroke textElC4.getText) ∧
    (textLayout (textElC4.getX - 0 + pad)
        (textElC4.getY - 0 + pad + textElC4.getFontSize)
        textElC4.getFontSize textElC4.getText).length =
      (splitOnNl textElC4.getText).length := by
  have h := C4_text_anchor_and_stacking.2 0 0 textElC4 rfl rfl
  exact ⟨h.1, h.2.2.1⟩

set_option maxRecDepth 100000 in
/-- C6 (refuting evaluation): on a document whose text holds a raw less-than
sign, the synthesized markup fails the `xmlLtOk` scan, a necessary condition
for well-formed SVG — the renderer interpolates text without escaping. -/
theorem C6_unescaped_text_not_wellformed :
    Except.map xmlLtOk (excalidraw_to_svg docBadText) = .ok false := by
  rw [synth_nonempty docBadText badTextEl [] rfl]
  have h1 : canvasW [badTextEl] = 180 := by
    norm_num [canvasW, maxXof, minXof, pyMax, pyMin, pad, badTextEl,
      Element.getX, Element.getWidth]
  have h2 : canvasH [badTextEl] = 130 := by
    norm_num [canvasH, maxYof, minYof, pyMax, pyMin, pad, badTextEl,
      Element.getY, Element.getHeight]
  have h3 : svgsList [badTextEl] = [Prim.text 40 56 16 "#000" "a<b"] := by
    simp only [svgsList, minXof, minYof, pyMin, List.map_cons, List.map_nil,
      List.foldl_nil, Option.getD_some, List.filterMap_cons, List.filterMap_nil]
    norm_num [elemSvg, badTextEl, pad, Element.getDeleted, Element.getType,
      Element.getX, Element.getY, Element.getStroke, Element.getFontSize,
      Element.getText]
    rfl
  have hx : xmlLtOk (svgRoot 180 130 (String.join
      (List.map renderPrim [Prim.text 40 56 16 "#000" "a<b"]))) = false := by decide
  rw [h1, h2, h3]
  show Except.ok (xmlLtOk (svgRoot 180 130 (String.join
      (List.map renderPrim [Prim.text 40 56 16 "#000" "a<b"])))) = Except.ok false
  rw [hx]

/-- C7 (counterexample): when the raster library imports but its encoding
call raises a non-import exception, `convert` propagates the exception
instead of returning a boolean. -/
theorem C7_counterexample_raster_crash_propagates :
    convert envBad7 "out.png" = .error (PyErr.exn "raster crash") := rfl

theorem convert_fallback (env : Env) (out : String) (d : SceneDocument)
    (hl : env.loadResult = .ok d) (hp : env.playwrightResult ≠ .ok true) :
    convert env out = match excalidraw_to_svg d with
      | .error e => .error e
      | .ok svg => svg_to_png env svg out := by
  rw [convert, hl]
  cases hpw : env.playwrightResult with
  | ok b =>
    cases b with
    | true => exact absurd hpw hp
    | false => rfl
  | error e => rfl

theorem svg_to_png_ok (env : Env) (svg out : String)
    (h2 : env.cairosvgAvailable = true →
      env.cairosvgResult = .ok () ∨ env.cairosvgResult = .error PyErr.importError) :
    isOkB (svg_to_png env svg out) = true := by
  rw [svg_to_png]
  cases hca : env.cairosvgAvailable with
  | false =>
    cases hik : env.inkscapeOk <;> simp [hik, isOkB]
  | true =>
    rcases h2 hca with h | h
    · simp [h, isOkB]
    · cases hik : env.inkscapeOk <;> simp [h, hik, isOkB]

/-- C7 (amended): the orchestrator catches every primary-renderer exception
and the raster encoder's import failure, returning only a boolean — provided
the scene loads and any exception arising inside the `svg_to_png` try-block
is an import error (a non-import raster failure, or a scene-parse failure,
propagates, which is the correction to the claim). -/
theorem C7_amended_no_propagation :
    ∀ (env : Env) (out : String),
      isOkB env.loadResult = true →
      (env.cairosvgAvailable = true →
        env.cairosvgResult = .ok () ∨ env.cairosvgResult = .error PyErr.importError) →
      isOkB (convert env out) = true := by
  intro env out h1 h2
  cases hl : env.loadResult with
  | error e =>
    rw [hl] at h1
    exact Bool.noConfusion h1
  | ok d =>
    rcases synth_ok d with ⟨s, hs⟩
    cases hp : env.playwrightResult with
    | ok b =>
      cases b with
      | true =>
        rw [convert, hl, hp]
        rfl
      | false =>
        rw [convert_fallback env out d hl (by simp [hp]), hs]
        exact svg_to_png_ok env s out h2
    | error e =>
      rw [convert_fallback env out d hl (by simp [hp]), hs]
      exact svg_to_png_ok env s out h2

/-- Witness for the amended C7 in an environment where cairosvg succeeds. -/
theorem C7_amended_no_propagation_witness :
    isOkB (convert envOk7 "out.png") = true :=
  C7_amended_no_propagation envOk7 "out.png" rfl (fun _ => Or.inl rfl)

/-- C8 (counterexample): with both rasterization paths failing — cairosvg
present but raising on encode, inkscape failing — `convert` raises instead of
persisting the `.svg` sibling and returning false. -/
theorem C8_counterexample_raster_crash_no_artifact :
    (envBad8.playwrightResult = .error (PyErr.exn "no browser") ∧
      envBad8.cairosvgResult = .error (PyErr.exn "encode failed") ∧
      envBad8.inkscapeOk = false) ∧
    convert envBad8 "out.png" = .error (PyErr.exn "encode failed") :=
  ⟨⟨rfl, rfl, rfl⟩, rfl⟩

/-- C8 (amended): when the raster library is unavailable (its import fails)
and the command-line editor also fails, `convert` writes the synthesized SVG
text to the output path with every occurrence of ".png" replaced by ".svg"
(for an ordinary path, the extension swap) and returns false, which `main`
maps to exit code 1. -/
theorem C8_amended_svg_artifact_on_unavailable :
    ∀ (env : Env) (out : String) (d : SceneDocument) (s : String),
      env.loadResult = .ok d →
      excalidraw_to_svg d = .ok s →
      env.playwrightResult ≠ .ok true →
      (env.cairosvgAvailable = false ∨ env.cairosvgResult = .error PyErr.importError) →
      env.inkscapeOk = false →
      convert env out = .ok (false, [(pyReplace out ".png" ".svg", s)]) ∧
      sysExitCode false = 1 := by
  intro env out d s h1 hs h2 h3 h4
  have hsp : svg_to_png env s out = .ok (false, [(pyReplace out ".png" ".svg", s)]) := by
    rw [svg_to_png]
    have htb : (if env.cairosvgAvailable then env.cairosvgResult
        else .error PyErr.importError) = .error PyErr.importError := by
      rcases h3 with h | h
      · rw [h]
        rfl
      · cases hca : env.cairosvgAvailable <;> simp [h]
    rw [htb, h4]
    rfl
  refine ⟨?_, rfl⟩
  rw [convert_fallback env out d h1 h2, hs]
  exact hsp

/-- Witness for the amended C8 in an environment with no rasterizer. -/
theorem C8_amended_svg_artifact_on_unavailable_witness :
    convert envSvgOnly "out.png" =
      .ok (false, [(pyReplace "out.png" ".png" ".svg", emptySvg)]) ∧
    sysExitCode false = 1 :=
  C8_amended_svg_artifact_on_unavailable envSvgOnly "out.png" { elements := some [] }
    emptySvg rfl rfl (fun h => Except.noConfusion h) (Or.inl rfl) rfl
